import Mathlib

/-
Shallow embedding of the cloth-shop billing backend (src/main.py).

Modelling conventions:
- SQL Numeric(10,2) / Python Decimal quantities are modelled as exact
  rationals; the handlers only add, subtract, multiply and (in the
  profit report) divide small decimal values, all exact in this range.
- Nullable columns and optional request fields are Option values.
- A database is a pair of row lists plus surrogate-id counters; each
  handler is a pure function from a database state (and a request) to a
  new database state together with an Except result, where an error
  value corresponds to the HTTPException paths of the handler and the
  state component on the error paths is the unchanged input state,
  mirroring that the handlers raise before any add/commit.
- Python truthiness of Optional[int] (None and 0 are falsy) is encoded
  by truthyId; Python `x or y` on strings (None and "" are falsy) by
  pyOrStr.
-/

namespace ClothBilling

/-- Row of the inventory table (class Inventory, src/main.py lines 43-54). -/
structure Inventory where
  id : Nat
  company_name : String
  design_code : String
  total_thans : ℚ
  meters_per_than : ℚ
  total_meters : ℚ
  cost_price_per_meter : ℚ
  total_stock_value : ℚ
deriving DecidableEq

/-- Row of the sales_records table (class SalesRecord, src/main.py lines 56-76).
All three foreign keys and the label and numeric columns are nullable. -/
structure SalesRecord where
  id : Nat
  inventory_id : Option Nat
  kameez_inventory_id : Option Nat
  shalwar_inventory_id : Option Nat
  company_name : Option String
  design_code : Option String
  kameez_company_name : Option String
  kameez_design_code : Option String
  shalwar_company_name : Option String
  shalwar_design_code : Option String
  kameez_meters : Option ℚ
  kameez_rate : Option ℚ
  kameez_total : Option ℚ
  shalwar_meters : Option ℚ
  shalwar_rate : Option ℚ
  shalwar_total : Option ℚ
  grand_total : Option ℚ
deriving DecidableEq

/-- Database state: the two tables plus the next surrogate ids. -/
structure DB where
  nextInvId : Nat
  nextSaleId : Nat
  inventory : List Inventory
  sales : List SalesRecord
deriving DecidableEq

/-- Models the pattern `Decimal(str(x)) if x is not None else Decimal(0)`
used throughout the handlers for nullable numeric columns. -/
def qOrZero (x : Option ℚ) : ℚ := x.getD 0

/-- Models Python `given or dflt` for optional strings: None and the empty
string are falsy, so both fall back to the default. -/
def pyOrStr (given : Option String) (dflt : String) : String :=
  match given with
  | none => dflt
  | some s => if s = "" then dflt else s

/-- Python truthiness of an Optional[int]: None and 0 are falsy. -/
def truthyId : Option Nat → Bool
  | none => false
  | some i => decide (i ≠ 0)

/-- Models `db.query(Inventory).filter(Inventory.id == stockId).first()`. -/
def findInventory (db : DB) (stockId : Nat) : Option Inventory :=
  db.inventory.find? (fun inv => inv.id == stockId)

/-- Which cut an insufficient-stock message names: the kameez branch, the
shalwar branch, or the legacy whole-bill branch (src/main.py lines 566-570,
599-603, 623-627 build three distinct messages). -/
inductive CutLabel where
  | kameez
  | shalwar
  | legacy
deriving DecidableEq

/-- Error outcomes of the handlers: 404 not-found with its detail string,
400 delete-conflict carrying the count of linked sales records that the
detail string interpolates, and 400 insufficient stock naming the cut and
the available and required meter amounts that the detail string
interpolates. -/
inductive ApiError where
  | notFound (detail : String)
  | conflict (linkedCount : Nat)
  | insufficientStock (cut : CutLabel) (available required : ℚ)
deriving DecidableEq

/-- Body of POST /add-stock (class StockCreate). -/
structure StockCreate where
  company_name : String
  design_code : String
  total_thans : ℚ
  meters_per_than : ℚ
  cost_price_per_meter : ℚ
deriving DecidableEq

/-- Body of PUT /update-stock (class StockUpdate); every field optional. -/
structure StockUpdate where
  company_name : Option String
  design_code : Option String
  total_thans : Option ℚ
  meters_per_than : Option ℚ
  cost_price_per_meter : Option ℚ
deriving DecidableEq

/-- add_stock handler (src/main.py lines 283-311): computes the derived
columns and inserts one inventory row; never fails at the domain level. -/
def addStock (db : DB) (stock : StockCreate) : DB × Inventory :=
  let total_meters := stock.total_thans * stock.meters_per_than
  let total_stock_value := total_meters * stock.cost_price_per_meter
  let inv : Inventory :=
    { id := db.nextInvId
      company_name := stock.company_name
      design_code := stock.design_code
      total_thans := stock.total_thans
      meters_per_than := stock.meters_per_than
      total_meters := total_meters
      cost_price_per_meter := stock.cost_price_per_meter
      total_stock_value := total_stock_value }
  ({ db with inventory := db.inventory ++ [inv], nextInvId := db.nextInvId + 1 }, inv)

/-- Field application of update_stock (src/main.py lines 324-338): each
provided field overwrites, then both derived columns are recomputed from
the post-update values. -/
def applyStockUpdate (inv : Inventory) (u : StockUpdate) : Inventory :=
  let inv := match u.company_name with
    | some c => { inv with company_name := c }
    | none => inv
  let inv := match u.design_code with
    | some c => { inv with design_code := c }
    | none => inv
  let inv := match u.total_thans with
    | some t => { inv with total_thans := t }
    | none => inv
  let inv := match u.meters_per_than with
    | some m => { inv with meters_per_than := m }
    | none => inv
  let inv := match u.cost_price_per_meter with
    | some c => { inv with cost_price_per_meter := c }
    | none => inv
  let inv := { inv with total_meters := inv.total_thans * inv.meters_per_than }
  { inv with total_stock_value := inv.total_meters * inv.cost_price_per_meter }

/-- update_stock handler (src/main.py lines 313-343). -/
def updateStock (db : DB) (stockId : Nat) (u : StockUpdate) :
    DB × Except ApiError Inventory :=
  match findInventory db stockId with
  | none => (db, .error (.notFound "Stock item not found"))
  | some inv =>
    let inv2 := applyStockUpdate inv u
    ({ db with inventory := db.inventory.map (fun x => if x.id == stockId then inv2 else x) },
     .ok inv2)

/-- Count of sales rows referencing a lot through any of the three foreign
keys (src/main.py lines 368-374, the or_ filter in delete_stock). -/
def salesRefCount (sales : List SalesRecord) (stockId : Nat) : Nat :=
  (sales.filter (fun s =>
    s.inventory_id == some stockId || s.kameez_inventory_id == some stockId ||
      s.shalwar_inventory_id == some stockId)).length

/-- delete_stock handler (src/main.py lines 353-394). -/
def deleteStock (db : DB) (stockId : Nat) : DB × Except ApiError Unit :=
  match findInventory db stockId with
  | none => (db, .error (.notFound "Stock item not found"))
  | some _ =>
    let cnt := salesRefCount db.sales stockId
    if cnt > 0 then (db, .error (.conflict cnt))
    else ({ db with inventory := db.inventory.filter (fun x => x.id != stockId) }, .ok ())

/-- Response row of GET /get-inventory (class InventoryStatus). -/
structure InventoryStatus where
  id : Nat
  company_name : String
  design_code : String
  total_thans : ℚ
  meters_per_than : ℚ
  total_meters : ℚ
  cost_price_per_meter : ℚ
  total_stock_value : ℚ
  sold_meters : ℚ
  remaining_meters : ℚ
  remaining_stock_value : ℚ
deriving DecidableEq

/-- Sold-meters accumulation of get_inventory for one lot (src/main.py
lines 410-438): legacy-linked rows contribute both cuts, kameez-linked rows
contribute kameez meters, shalwar-linked rows contribute shalwar meters. -/
def soldMetersFor (sales : List SalesRecord) (lotId : Nat) : ℚ :=
  let sales_old := sales.filter (fun s => s.inventory_id == some lotId)
  let sales_kameez := sales.filter (fun s => s.kameez_inventory_id == some lotId)
  let sales_shalwar := sales.filter (fun s => s.shalwar_inventory_id == some lotId)
  let m1 := sales_old.foldl
    (fun acc s => acc + qOrZero s.kameez_meters + qOrZero s.shalwar_meters) 0
  let m2 := sales_kameez.foldl (fun acc s => acc + qOrZero s.kameez_meters) m1
  sales_shalwar.foldl (fun acc s => acc + qOrZero s.shalwar_meters) m2

/-- get_inventory handler (src/main.py lines 396-463). -/
def getInventory (db : DB) : List InventoryStatus :=
  db.inventory.map (fun item =>
    let sold_meters := soldMetersFor db.sales item.id
    let remaining_meters := item.total_meters - sold_meters
    let remaining_stock_value := remaining_meters * item.cost_price_per_meter
    { id := item.id
      company_name := item.company_name
      design_code := item.design_code
      total_thans := item.total_thans
      meters_per_than := item.meters_per_than
      total_meters := item.total_meters
      cost_price_per_meter := item.cost_price_per_meter
      total_stock_value := item.total_stock_value
      sold_meters := sold_meters
      remaining_meters := remaining_meters
      remaining_stock_value := remaining_stock_value })

/-- Modelled from the claim wording: sold meters as the sum, over the three
(possibly overlapping) linkage subsets, of the matching cut meters. -/
def specSoldMeters (sales : List SalesRecord) (lotId : Nat) : ℚ :=
  ((sales.filter (fun s => s.inventory_id == some lotId)).map
      (fun s => qOrZero s.kameez_meters + qOrZero s.shalwar_meters)).sum
    + ((sales.filter (fun s => s.kameez_inventory_id == some lotId)).map
      (fun s => qOrZero s.kameez_meters)).sum
    + ((sales.filter (fun s => s.shalwar_inventory_id == some lotId)).map
      (fun s => qOrZero s.shalwar_meters)).sum

/-- Modelled from the claim wording: the status row the listing should
compute for one lot. -/
def specInventoryStatus (sales : List SalesRecord) (item : Inventory) : InventoryStatus :=
  { id := item.id
    company_name := item.company_name
    design_code := item.design_code
    total_thans := item.total_thans
    meters_per_than := item.meters_per_than
    total_meters := item.total_meters
    cost_price_per_meter := item.cost_price_per_meter
    total_stock_value := item.total_stock_value
    sold_meters := specSoldMeters sales item.id
    remaining_meters := item.total_meters - specSoldMeters sales item.id
    remaining_stock_value :=
      (item.total_meters - specSoldMeters sales item.id) * item.cost_price_per_meter }

/-- Body of POST /create-bill (class BillCreate): optional legacy lot id and
labels, optional per-cut lot ids and labels, required meters and rates. -/
structure BillCreate where
  inventory_id : Option Nat
  kameez_inventory_id : Option Nat
  shalwar_inventory_id : Option Nat
  company_name : Option String
  design_code : Option String
  kameez_company_name : Option String
  kameez_design_code : Option String
  shalwar_company_name : Option String
  shalwar_design_code : Option String
  kameez_meters : ℚ
  kameez_rate : ℚ
  shalwar_meters : ℚ
  shalwar_rate : ℚ
deriving DecidableEq

/-- Kameez sold-meters accumulation of create_bill (src/main.py lines
549-561): the query filters on kameez-linked OR (legacy-linked AND kameez
link NULL), then the loop re-checks the same two cases and adds the kameez
meters in each. -/
def soldKameezMeters (sales : List SalesRecord) (kid : Nat) : ℚ :=
  let filtered := sales.filter (fun s =>
    s.kameez_inventory_id == some kid ||
      (s.inventory_id == some kid && s.kameez_inventory_id == none))
  filtered.foldl (fun acc s =>
    if s.kameez_inventory_id = none ∧ s.inventory_id = some kid then
      acc + qOrZero s.kameez_meters
    else if s.kameez_inventory_id = some kid then
      acc + qOrZero s.kameez_meters
    else acc) 0

/-- Shalwar sold-meters accumulation of create_bill (src/main.py lines
582-594), symmetric to the kameez one. -/
def soldShalwarMeters (sales : List SalesRecord) (sid : Nat) : ℚ :=
  let filtered := sales.filter (fun s =>
    s.shalwar_inventory_id == some sid ||
      (s.inventory_id == some sid && s.shalwar_inventory_id == none))
  filtered.foldl (fun acc s =>
    if s.shalwar_inventory_id = none ∧ s.inventory_id = some sid then
      acc + qOrZero s.shalwar_meters
    else if s.shalwar_inventory_id = some sid then
      acc + qOrZero s.shalwar_meters
    else acc) 0

/-- Kameez validation branch of create_bill (src/main.py lines 543-573):
when the kameez lot id is truthy, look the lot up, check remaining stock,
and default the kameez labels from the lot; returns the kameez label pair
in force afterwards. -/
def checkKameez (db : DB) (bill : BillCreate) :
    Except ApiError (Option String × Option String) :=
  if truthyId bill.kameez_inventory_id then
    match bill.kameez_inventory_id with
    | none => .ok (bill.kameez_company_name, bill.kameez_design_code)
    | some kid =>
      match findInventory db kid with
      | none => .error (.notFound "Kameez inventory item not found")
      | some kameez_inventory =>
        let sold_kameez_meters := soldKameezMeters db.sales kid
        let remaining_kameez := kameez_inventory.total_meters - sold_kameez_meters
        let kameez_needed := bill.kameez_meters
        if kameez_needed > remaining_kameez then
          .error (.insufficientStock .kameez remaining_kameez kameez_needed)
        else
          .ok (some (pyOrStr bill.kameez_company_name kameez_inventory.company_name),
               some (pyOrStr bill.kameez_design_code kameez_inventory.design_code))
  else
    .ok (bill.kameez_company_name, bill.kameez_design_code)

/-- Shalwar validation branch of create_bill (src/main.py lines 576-606),
symmetric to the kameez one. -/
def checkShalwar (db : DB) (bill : BillCreate) :
    Except ApiError (Option String × Option String) :=
  if truthyId bill.shalwar_inventory_id then
    match bill.shalwar_inventory_id with
    | none => .ok (bill.shalwar_company_name, bill.shalwar_design_code)
    | some sid =>
      match findInventory db sid with
      | none => .error (.notFound "Shalwar inventory item not found")
      | some shalwar_inventory =>
        let sold_shalwar_meters := soldShalwarMeters db.sales sid
        let remaining_shalwar := shalwar_inventory.total_meters - sold_shalwar_meters
        let shalwar_needed := bill.shalwar_meters
        if shalwar_needed > remaining_shalwar then
          .error (.insufficientStock .shalwar remaining_shalwar shalwar_needed)
        else
          .ok (some (pyOrStr bill.shalwar_company_name shalwar_inventory.company_name),
               some (pyOrStr bill.shalwar_design_code shalwar_inventory.design_code))
  else
    .ok (bill.shalwar_company_name, bill.shalwar_design_code)

/-- Legacy validation branch of create_bill (src/main.py lines 608-633):
taken only when the legacy lot id is truthy and neither split id is; the
whole bill is validated against the legacy lot and the shared label pair
defaults from the lot. -/
def checkLegacy (db : DB) (bill : BillCreate) :
    Except ApiError (Option String × Option String) :=
  if truthyId bill.inventory_id && !truthyId bill.kameez_inventory_id &&
      !truthyId bill.shalwar_inventory_id then
    match bill.inventory_id with
    | none => .ok (bill.company_name, bill.design_code)
    | some iid =>
      match findInventory db iid with
      | none => .error (.notFound "Inventory item not found")
      | some inventory =>
        let total_meters_needed := bill.kameez_meters + bill.shalwar_meters
        let sales := db.sales.filter (fun s => s.inventory_id == some iid)
        let sold_meters := sales.foldl
          (fun acc s => acc + qOrZero s.kameez_meters + qOrZero s.shalwar_meters) 0
        let remaining_meters := inventory.total_meters - sold_meters
        if total_meters_needed > remaining_meters then
          .error (.insufficientStock .legacy remaining_meters total_meters_needed)
        else
          .ok (some (pyOrStr bill.company_name inventory.company_name),
               some (pyOrStr bill.design_code inventory.design_code))
  else
    .ok (bill.company_name, bill.design_code)

/-- create_bill handler (src/main.py lines 530-672): the three validation
branches run in source order, each raise aborts with the state unchanged,
and on success exactly one sales row with the computed totals is inserted. -/
def createBill (db : DB) (bill : BillCreate) : DB × Except ApiError SalesRecord :=
  match checkKameez db bill with
  | .error e => (db, .error e)
  | .ok (kameez_company_name, kameez_design_code) =>
    match checkShalwar db bill with
    | .error e => (db, .error e)
    | .ok (shalwar_company_name, shalwar_design_code) =>
      match checkLegacy db bill with
      | .error e => (db, .error e)
      | .ok (company_name, design_code) =>
        let kameez_total := bill.kameez_meters * bill.kameez_rate
        let shalwar_total := bill.shalwar_meters * bill.shalwar_rate
        let grand_total := kameez_total + shalwar_total
        let sales_record : SalesRecord :=
          { id := db.nextSaleId
            inventory_id := bill.inventory_id
            kameez_inventory_id := bill.kameez_inventory_id
            shalwar_inventory_id := bill.shalwar_inventory_id
            company_name := company_name
            design_code := design_code
            kameez_company_name := kameez_company_name
            kameez_design_code := kameez_design_code
            shalwar_company_name := shalwar_company_name
            shalwar_design_code := shalwar_design_code
            kameez_meters := some bill.kameez_meters
            kameez_rate := some bill.kameez_rate
            kameez_total := some kameez_total
            shalwar_meters := some bill.shalwar_meters
            shalwar_rate := some bill.shalwar_rate
            shalwar_total := some shalwar_total
            grand_total := some grand_total }
        ({ db with sales := db.sales ++ [sales_record], nextSaleId := db.nextSaleId + 1 },
         .ok sales_record)

/-- Entry of the GET /get-profit-loss response. -/
structure ProfitLossEntry where
  company_name : String
  design_code : String
  meters_sold : ℚ
  cost_price_per_meter : ℚ
  total_cost : ℚ
  total_revenue : ℚ
  profit : ℚ
  profit_percentage : ℚ
deriving DecidableEq

/-- Revenue, cost and meters accumulation of get_profit_loss for one lot
(src/main.py lines 686-740): the triple is (total_revenue, total_cost,
total_meters_sold) after the three loops over the legacy-, kameez- and
shalwar-linked sales. -/
def plTotals (sales : List SalesRecord) (item : Inventory) : ℚ × ℚ × ℚ :=
  let sales_old := sales.filter (fun s => s.inventory_id == some item.id)
  let sales_kameez := sales.filter (fun s => s.kameez_inventory_id == some item.id)
  let sales_shalwar := sales.filter (fun s => s.shalwar_inventory_id == some item.id)
  let acc1 := sales_old.foldl (fun acc s =>
    (acc.1 + qOrZero s.grand_total,
     acc.2.1 + (qOrZero s.kameez_meters + qOrZero s.shalwar_meters) * item.cost_price_per_meter,
     acc.2.2 + (qOrZero s.kameez_meters + qOrZero s.shalwar_meters))) (0, 0, 0)
  let acc2 := sales_kameez.foldl (fun acc s =>
    (acc.1 + qOrZero s.kameez_meters * qOrZero s.kameez_rate,
     acc.2.1 + qOrZero s.kameez_meters * item.cost_price_per_meter,
     acc.2.2 + qOrZero s.kameez_meters)) acc1
  sales_shalwar.foldl (fun acc s =>
    (acc.1 + qOrZero s.shalwar_meters * qOrZero s.shalwar_rate,
     acc.2.1 + qOrZero s.shalwar_meters * item.cost_price_per_meter,
     acc.2.2 + qOrZero s.shalwar_meters)) acc2

/-- get_profit_loss handler (src/main.py lines 674-762): per lot, aggregate
revenue, cost and meters, and report only lots with positive meters sold. -/
def getProfitLoss (db : DB) : List ProfitLossEntry :=
  db.inventory.filterMap (fun item =>
    let t := plTotals db.sales item
    let profit := t.1 - t.2.1
    if t.2.2 > 0 then
      some { company_name := item.company_name
             design_code := item.design_code
             meters_sold := t.2.2
             cost_price_per_meter := item.cost_price_per_meter
             total_cost := t.2.1
             total_revenue := t.1
             profit := profit
             profit_percentage := if t.2.1 > 0 then profit / t.2.1 * 100 else 0 }
    else none)

/-- Modelled from the claim wording: the (revenue, cost, meters) triple as
three sums per linkage subset. -/
def specPlTotals (sales : List SalesRecord) (item : Inventory) : ℚ × ℚ × ℚ :=
  let sales_old := sales.filter (fun s => s.inventory_id == some item.id)
  let sales_kameez := sales.filter (fun s => s.kameez_inventory_id == some item.id)
  let sales_shalwar := sales.filter (fun s => s.shalwar_inventory_id == some item.id)
  ((sales_old.map (fun s => qOrZero s.grand_total)).sum
     + (sales_kameez.map (fun s => qOrZero s.kameez_meters * qOrZero s.kameez_rate)).sum
     + (sales_shalwar.map (fun s => qOrZero s.shalwar_meters * qOrZero s.shalwar_rate)).sum,
   (sales_old.map (fun s =>
       (qOrZero s.kameez_meters + qOrZero s.shalwar_meters) * item.cost_price_per_meter)).sum
     + (sales_kameez.map (fun s => qOrZero s.kameez_meters * item.cost_price_per_meter)).sum
     + (sales_shalwar.map (fun s => qOrZero s.shalwar_meters * item.cost_price_per_meter)).sum,
   (sales_old.map (fun s => qOrZero s.kameez_meters + qOrZero s.shalwar_meters)).sum
     + (sales_kameez.map (fun s => qOrZero s.kameez_meters)).sum
     + (sales_shalwar.map (fun s => qOrZero s.shalwar_meters)).sum)

/-- Modelled from the claim wording: the profit/loss entry a lot should
produce, with profit = revenue minus cost, percentage guarded by cost > 0,
and lots with no meters sold omitted. -/
def specProfitLossEntry (sales : List SalesRecord) (item : Inventory) :
    Option ProfitLossEntry :=
  let t := specPlTotals sales item
  if t.2.2 > 0 then
    some { company_name := item.company_name
           design_code := item.design_code
           meters_sold := t.2.2
           cost_price_per_meter := item.cost_price_per_meter
           total_cost := t.2.1
           total_revenue := t.1
           profit := t.1 - t.2.1
           profit_percentage := if t.2.1 > 0 then (t.1 - t.2.1) / t.2.1 * 100 else 0 }
  else none

/-- Modelled from the claim wording: kameez meters already sold against a
lot, over records that are kameez-linked to it or legacy-linked to it with
no kameez link. -/
def specSoldKameez (sales : List SalesRecord) (kid : Nat) : ℚ :=
  ((sales.filter (fun s =>
      s.kameez_inventory_id == some kid ||
        (s.inventory_id == some kid && s.kameez_inventory_id == none))).map
    (fun s => qOrZero s.kameez_meters)).sum

/-- Modelled from the claim wording: shalwar meters already sold against a
lot, symmetric to specSoldKameez. -/
def specSoldShalwar (sales : List SalesRecord) (sid : Nat) : ℚ :=
  ((sales.filter (fun s =>
      s.shalwar_inventory_id == some sid ||
        (s.inventory_id == some sid && s.shalwar_inventory_id == none))).map
    (fun s => qOrZero s.shalwar_meters)).sum

/-- Modelled from the claim wording: combined cut meters already sold
against a lot over its legacy-linked records only. -/
def specSoldLegacy (sales : List SalesRecord) (iid : Nat) : ℚ :=
  ((sales.filter (fun s => s.inventory_id == some iid)).map
    (fun s => qOrZero s.kameez_meters + qOrZero s.shalwar_meters)).sum

lemma foldl_add_map {α : Type} (f : α → ℚ) (l : List α) :
    ∀ a : ℚ, l.foldl (fun acc x => acc + f x) a = a + (l.map f).sum := by
  induction l with
  | nil => intro a; simp
  | cons x xs ih =>
    intro a
    simp only [List.foldl_cons, List.map_cons, List.sum_cons, ih, add_assoc]

lemma foldl_add_map2 {α : Type} (f g : α → ℚ) (l : List α) :
    ∀ a : ℚ, l.foldl (fun acc x => acc + f x + g x) a = a + (l.map (fun x => f x + g x)).sum := by
  induction l with
  | nil => intro a; simp
  | cons x xs ih =>
    intro a
    simp only [List.foldl_cons, List.map_cons, List.sum_cons, ih]
    ring

lemma foldl_triple {α : Type} (f g h : α → ℚ) (l : List α) :
    ∀ a : ℚ × ℚ × ℚ,
      l.foldl (fun acc x => (acc.1 + f x, acc.2.1 + g x, acc.2.2 + h x)) a
        = (a.1 + (l.map f).sum, a.2.1 + (l.map g).sum, a.2.2 + (l.map h).sum) := by
  induction l with
  | nil => intro a; simp
  | cons x xs ih =>
    intro a
    simp only [List.foldl_cons, List.map_cons, List.sum_cons, ih, Prod.mk.injEq]
    exact ⟨by ring, by ring, by ring⟩

lemma foldl_if_add {α : Type} (p q : α → Prop) [DecidablePred p] [DecidablePred q]
    (f : α → ℚ) (l : List α) (a : ℚ) (hpq : ∀ x ∈ l, p x ∨ q x) :
    l.foldl (fun acc x => if p x then acc + f x else if q x then acc + f x else acc) a
      = a + (l.map f).sum := by
  revert hpq
  induction l generalizing a with
  | nil => intro _; simp
  | cons x xs ih =>
    intro hpq
    have hx := hpq x (List.mem_cons_self x xs)
    have hxs : ∀ y ∈ xs, p y ∨ q y := fun y hy => hpq y (List.mem_cons_of_mem x hy)
    have hstep : (if p x then a + f x else if q x then a + f x else a) = a + f x := by
      rcases hx with hp | hq
      · rw [if_pos hp]
      · by_cases hp : p x
        · rw [if_pos hp]
        · rw [if_neg hp, if_pos hq]
    simp only [List.foldl_cons, hstep, List.map_cons, List.sum_cons]
    rw [ih (a + f x) hxs, add_assoc]

lemma soldMetersFor_eq (sales : List SalesRecord) (lotId : Nat) :
    soldMetersFor sales lotId = specSoldMeters sales lotId := by
  simp only [soldMetersFor, specSoldMeters, foldl_add_map2, foldl_add_map, zero_add]

lemma plTotals_eq (sales : List SalesRecord) (item : Inventory) :
    plTotals sales item = specPlTotals sales item := by
  simp only [plTotals, specPlTotals, foldl_triple, zero_add]

lemma soldKameezMeters_eq (sales : List SalesRecord) (kid : Nat) :
    soldKameezMeters sales kid = specSoldKameez sales kid := by
  have hpq : ∀ s ∈ sales.filter (fun s =>
      s.kameez_inventory_id == some kid ||
        (s.inventory_id == some kid && s.kameez_inventory_id == none)),
      (s.kameez_inventory_id = none ∧ s.inventory_id = some kid) ∨
        s.kameez_inventory_id = some kid := by
    intro s hs
    have h := (List.mem_filter.mp hs).2
    simp only [Bool.or_eq_true, Bool.and_eq_true, beq_iff_eq] at h
    rcases h with h | ⟨h1, h2⟩
    · exact Or.inr h
    · exact Or.inl ⟨h2, h1⟩
  have key := foldl_if_add
    (fun s => s.kameez_inventory_id = none ∧ s.inventory_id = some kid)
    (fun s => s.kameez_inventory_id = some kid)
    (fun s => qOrZero s.kameez_meters)
    (sales.filter (fun s =>
      s.kameez_inventory_id == some kid ||
        (s.inventory_id == some kid && s.kameez_inventory_id == none))) 0 hpq
  exact key.trans (zero_add _)

lemma soldShalwarMeters_eq (sales : List SalesRecord) (sid : Nat) :
    soldShalwarMeters sales sid = specSoldShalwar sales sid := by
  have hpq : ∀ s ∈ sales.filter (fun s =>
      s.shalwar_inventory_id == some sid ||
        (s.inventory_id == some sid && s.shalwar_inventory_id == none)),
      (s.shalwar_inventory_id = none ∧ s.inventory_id = some sid) ∨
        s.shalwar_inventory_id = some sid := by
    intro s hs
    have h := (List.mem_filter.mp hs).2
    simp only [Bool.or_eq_true, Bool.and_eq_true, beq_iff_eq] at h
    rcases h with h | ⟨h1, h2⟩
    · exact Or.inr h
    · exact Or.inl ⟨h2, h1⟩
  have key := foldl_if_add
    (fun s => s.shalwar_inventory_id = none ∧ s.inventory_id = some sid)
    (fun s => s.shalwar_inventory_id = some sid)
    (fun s => qOrZero s.shalwar_meters)
    (sales.filter (fun s =>
      s.shalwar_inventory_id == some sid ||
        (s.inventory_id == some sid && s.shalwar_inventory_id == none))) 0 hpq
  exact key.trans (zero_add _)

lemma truthyId_some {k : Nat} (h : k ≠ 0) : truthyId (some k) = true := by
  simp [truthyId, h]

lemma checkKameez_skip (db : DB) (bill : BillCreate)
    (h : truthyId bill.kameez_inventory_id = false) :
    checkKameez db bill = .ok (bill.kameez_company_name, bill.kameez_design_code) := by
  simp [checkKameez, h]

lemma checkShalwar_skip (db : DB) (bill : BillCreate)
    (h : truthyId bill.shalwar_inventory_id = false) :
    checkShalwar db bill = .ok (bill.shalwar_company_name, bill.shalwar_design_code) := by
  simp [checkShalwar, h]

lemma checkKameez_notFound (db : DB) (bill : BillCreate) {k : Nat}
    (hk : bill.kameez_inventory_id = some k) (h0 : k ≠ 0)
    (hf : findInventory db k = none) :
    checkKameez db bill = .error (.notFound "Kameez inventory item not found") := by
  simp [checkKameez, hk, truthyId, h0, hf]

lemma checkShalwar_notFound (db : DB) (bill : BillCreate) {s : Nat}
    (hs : bill.shalwar_inventory_id = some s) (h0 : s ≠ 0)
    (hf : findInventory db s = none) :
    checkShalwar db bill = .error (.notFound "Shalwar inventory item not found") := by
  simp [checkShalwar, hs, truthyId, h0, hf]

lemma checkKameez_found (db : DB) (bill : BillCreate) {k : Nat} {v : Inventory}
    (hk : bill.kameez_inventory_id = some k) (h0 : k ≠ 0)
    (hf : findInventory db k = some v) :
    checkKameez db bill =
      if bill.kameez_meters > v.total_meters - specSoldKameez db.sales k then
        .error (.insufficientStock .kameez (v.total_meters - specSoldKameez db.sales k)
          bill.kameez_meters)
      else
        .ok (some (pyOrStr bill.kameez_company_name v.company_name),
             some (pyOrStr bill.kameez_design_code v.design_code)) := by
  simp [checkKameez, hk, truthyId, h0, hf, soldKameezMeters_eq]

lemma checkShalwar_found (db : DB) (bill : BillCreate) {s : Nat} {v : Inventory}
    (hs : bill.shalwar_inventory_id = some s) (h0 : s ≠ 0)
    (hf : findInventory db s = some v) :
    checkShalwar db bill =
      if bill.shalwar_meters > v.total_meters - specSoldShalwar db.sales s then
        .error (.insufficientStock .shalwar (v.total_meters - specSoldShalwar db.sales s)
          bill.shalwar_meters)
      else
        .ok (some (pyOrStr bill.shalwar_company_name v.company_name),
             some (pyOrStr bill.shalwar_design_code v.design_code)) := by
  simp [checkShalwar, hs, truthyId, h0, hf, soldShalwarMeters_eq]

lemma checkLegacy_skip (db : DB) (bill : BillCreate)
    (h : (truthyId bill.inventory_id && !truthyId bill.kameez_inventory_id &&
      !truthyId bill.shalwar_inventory_id) = false) :
    checkLegacy db bill = .ok (bill.company_name, bill.design_code) := by
  simp only [checkLegacy, h, Bool.false_eq_true, if_false]

lemma checkLegacy_notFound (db : DB) (bill : BillCreate) {i : Nat}
    (hi : bill.inventory_id = some i) (h0 : i ≠ 0)
    (hk : truthyId bill.kameez_inventory_id = false)
    (hs : truthyId bill.shalwar_inventory_id = false)
    (hf : findInventory db i = none) :
    checkLegacy db bill = .error (.notFound "Inventory item not found") := by
  simp [checkLegacy, hi, hk, hs, truthyId_some h0, hf]

lemma checkLegacy_found (db : DB) (bill : BillCreate) {i : Nat} {v : Inventory}
    (hi : bill.inventory_id = some i) (h0 : i ≠ 0)
    (hk : truthyId bill.kameez_inventory_id = false)
    (hs : truthyId bill.shalwar_inventory_id = false)
    (hf : findInventory db i = some v) :
    checkLegacy db bill =
      if bill.kameez_meters + bill.shalwar_meters >
          v.total_meters - specSoldLegacy db.sales i then
        .error (.insufficientStock .legacy (v.total_meters - specSoldLegacy db.sales i)
          (bill.kameez_meters + bill.shalwar_meters))
      else
        .ok (some (pyOrStr bill.company_name v.company_name),
             some (pyOrStr bill.design_code v.design_code)) := by
  have hsold : (db.sales.filter (fun s => s.inventory_id == some i)).foldl
      (fun acc s => acc + qOrZero s.kameez_meters + qOrZero s.shalwar_meters) 0
      = specSoldLegacy db.sales i := by
    unfold specSoldLegacy
    rw [foldl_add_map2, zero_add]
  simp [checkLegacy, hi, hk, hs, truthyId_some h0, hf, hsold]

lemma createBill_err_kameez {db : DB} {bill : BillCreate} {e : ApiError}
    (h : checkKameez db bill = .error e) : createBill db bill = (db, .error e) := by
  simp [createBill, h]

lemma createBill_err_shalwar {db : DB} {bill : BillCreate} {e : ApiError}
    {p : Option String × Option String}
    (hk : checkKameez db bill = .ok p) (hs : checkShalwar db bill = .error e) :
    createBill db bill = (db, .error e) := by
  obtain ⟨a, b⟩ := p
  simp [createBill, hk, hs]

lemma createBill_err_legacy {db : DB} {bill : BillCreate} {e : ApiError}
    {p q : Option String × Option String}
    (hk : checkKameez db bill = .ok p) (hs : checkShalwar db bill = .ok q)
    (hl : checkLegacy db bill = .error e) :
    createBill db bill = (db, .error e) := by
  obtain ⟨a, b⟩ := p
  obtain ⟨c, d⟩ := q
  simp [createBill, hk, hs, hl]

lemma createBill_ok_eq {db : DB} {bill : BillCreate}
    {kc kd sc sd c d : Option String}
    (hk : checkKameez db bill = .ok (kc, kd)) (hs : checkShalwar db bill = .ok (sc, sd))
    (hl : checkLegacy db bill = .ok (c, d)) :
    createBill db bill =
      ({ db with
          sales := db.sales ++
            [{ id := db.nextSaleId
               inventory_id := bill.inventory_id
               kameez_inventory_id := bill.kameez_inventory_id
               shalwar_inventory_id := bill.shalwar_inventory_id
               company_name := c
               design_code := d
               kameez_company_name := kc
               kameez_design_code := kd
               shalwar_company_name := sc
               shalwar_design_code := sd
               kameez_meters := some bill.kameez_meters
               kameez_rate := some bill.kameez_rate
               kameez_total := some (bill.kameez_meters * bill.kameez_rate)
               shalwar_meters := some bill.shalwar_meters
               shalwar_rate := some bill.shalwar_rate
               shalwar_total := some (bill.shalwar_meters * bill.shalwar_rate)
               grand_total := some (bill.kameez_meters * bill.kameez_rate +
                 bill.shalwar_meters * bill.shalwar_rate) }]
          nextSaleId := db.nextSaleId + 1 },
       .ok { id := db.nextSaleId
             inventory_id := bill.inventory_id
             kameez_inventory_id := bill.kameez_inventory_id
             shalwar_inventory_id := bill.shalwar_inventory_id
             company_name := c
             design_code := d
             kameez_company_name := kc
             kameez_design_code := kd
             shalwar_company_name := sc
             shalwar_design_code := sd
             kameez_meters := some bill.kameez_meters
             kameez_rate := some bill.kameez_rate
             kameez_total := some (bill.kameez_meters * bill.kameez_rate)
             shalwar_meters := some bill.shalwar_meters
             shalwar_rate := some bill.shalwar_rate
             shalwar_total := some (bill.shalwar_meters * bill.shalwar_rate)
             grand_total := some (bill.kameez_meters * bill.kameez_rate +
               bill.shalwar_meters * bill.shalwar_rate) }) := by
  simp [createBill, hk, hs, hl]

lemma checkKameez_error_shape {db : DB} {bill : BillCreate} {e : ApiError}
    (h : checkKameez db bill = .error e) :
    e = .notFound "Kameez inventory item not found" ∨
      ∃ a r, e = .insufficientStock .kameez a r := by
  unfold checkKameez at h
  split at h
  · split at h
    · simp at h
    · split at h
      · left
        injection h with h2
        exact h2.symm
      · dsimp only at h
        split at h
        · right
          injection h with h2
          exact ⟨_, _, h2.symm⟩
        · simp at h
  · simp at h

lemma checkShalwar_error_shape {db : DB} {bill : BillCreate} {e : ApiError}
    (h : checkShalwar db bill = .error e) :
    e = .notFound "Shalwar inventory item not found" ∨
      ∃ a r, e = .insufficientStock .shalwar a r := by
  unfold checkShalwar at h
  split at h
  · split at h
    · simp at h
    · split at h
      · left
        injection h with h2
        exact h2.symm
      · dsimp only at h
        split at h
        · right
          injection h with h2
          exact ⟨_, _, h2.symm⟩
        · simp at h
  · simp at h

lemma checkLegacy_error_shape {db : DB} {bill : BillCreate} {e : ApiError}
    (h : checkLegacy db bill = .error e) :
    e = .notFound "Inventory item not found" ∨
      ∃ a r, e = .insufficientStock .legacy a r := by
  unfold checkLegacy at h
  split at h
  · split at h
    · simp at h
    · split at h
      · left
        injection h with h2
        exact h2.symm
      · dsimp only at h
        split at h
        · right
          injection h with h2
          exact ⟨_, _, h2.symm⟩
        · simp at h
  · simp at h

/-- Sample lot mirroring the worked example of the spec: 5 thans of 20
meters at cost 100 per meter. -/
def lot1 : Inventory :=
  { id := 1
    company_name := "Gul Ahmed"
    design_code := "D-101"
    total_thans := 5
    meters_per_than := 20
    total_meters := 100
    cost_price_per_meter := 100
    total_stock_value := 10000 }

/-- Empty database. -/
def dbEmpty : DB := { nextInvId := 1, nextSaleId := 1, inventory := [], sales := [] }

/-- Database holding only lot1 and no sales. -/
def dbOne : DB := { nextInvId := 2, nextSaleId := 1, inventory := [lot1], sales := [] }

/-- Sales row that is simultaneously legacy-linked and kameez-linked to
lot 1, the ambiguous case the aggregations do not deduplicate. -/
def dupSale : SalesRecord :=
  { id := 1
    inventory_id := some 1
    kameez_inventory_id := some 1
    shalwar_inventory_id := none
    company_name := none
    design_code := none
    kameez_company_name := none
    kameez_design_code := none
    shalwar_company_name := none
    shalwar_design_code := none
    kameez_meters := some 3
    kameez_rate := some 200
    kameez_total := some 600
    shalwar_meters := some 2
    shalwar_rate := some 180
    shalwar_total := some 360
    grand_total := some 960 }

/-- Bill asking 101 kameez meters from lot 1, which has only 100. -/
def billSplitBig : BillCreate :=
  { inventory_id := none
    kameez_inventory_id := some 1
    shalwar_inventory_id := none
    company_name := none
    design_code := none
    kameez_company_name := none
    kameez_design_code := none
    shalwar_company_name := none
    shalwar_design_code := none
    kameez_meters := 101
    kameez_rate := 200
    shalwar_meters := 0
    shalwar_rate := 0 }

/-- Legacy bill asking a combined 110 meters from lot 1. -/
def billLegacyBig : BillCreate :=
  { inventory_id := some 1
    kameez_inventory_id := none
    shalwar_inventory_id := none
    company_name := none
    design_code := none
    kameez_company_name := none
    kameez_design_code := none
    shalwar_company_name := none
    shalwar_design_code := none
    kameez_meters := 60
    kameez_rate := 200
    shalwar_meters := 50
    shalwar_rate := 180 }

/-- Valid split bill against lot 1 for the kameez cut only. -/
def billOkW : BillCreate :=
  { inventory_id := none
    kameez_inventory_id := some 1
    shalwar_inventory_id := none
    company_name := none
    design_code := none
    kameez_company_name := none
    kameez_design_code := none
    shalwar_company_name := none
    shalwar_design_code := none
    kameez_meters := 3
    kameez_rate := 200
    shalwar_meters := 2
    shalwar_rate := 180 }

/-- The sales row billOkW inserts into dbOne. -/
def recW : SalesRecord :=
  { id := 1
    inventory_id := none
    kameez_inventory_id := some 1
    shalwar_inventory_id := none
    company_name := none
    design_code := none
    kameez_company_name := some "Gul Ahmed"
    kameez_design_code := some "D-101"
    shalwar_company_name := none
    shalwar_design_code := none
    kameez_meters := some 3
    kameez_rate := some 200
    kameez_total := some 600
    shalwar_meters := some 2
    shalwar_rate := some 180
    shalwar_total := some 360
    grand_total := some 960 }

/-- dbOne after inserting recW. -/
def dbAfterW : DB := { nextInvId := 2, nextSaleId := 2, inventory := [lot1], sales := [recW] }

/-- Bill carrying both the legacy lot id and a kameez lot id for lot 1. -/
def billDupW : BillCreate :=
  { inventory_id := some 1
    kameez_inventory_id := some 1
    shalwar_inventory_id := none
    company_name := none
    design_code := none
    kameez_company_name := none
    kameez_design_code := none
    shalwar_company_name := none
    shalwar_design_code := none
    kameez_meters := 3
    kameez_rate := 200
    shalwar_meters := 2
    shalwar_rate := 180 }

/-- The sales row billDupW inserts into dbOne: linked both ways. -/
def recDupW : SalesRecord :=
  { id := 1
    inventory_id := some 1
    kameez_inventory_id := some 1
    shalwar_inventory_id := none
    company_name := none
    design_code := none
    kameez_company_name := some "Gul Ahmed"
    kameez_design_code := some "D-101"
    shalwar_company_name := none
    shalwar_design_code := none
    kameez_meters := some 3
    kameez_rate := some 200
    kameez_total := some 600
    shalwar_meters := some 2
    shalwar_rate := some 180
    shalwar_total := some 360
    grand_total := some 960 }

/-- Update request setting thans, meters per than and cost. -/
def stockUpdateW : StockUpdate :=
  { company_name := none
    design_code := none
    total_thans := some 10
    meters_per_than := some 25
    cost_price_per_meter := some 120 }

/-- lot1 after applying stockUpdateW. -/
def invUpdatedW : Inventory :=
  { id := 1
    company_name := "Gul Ahmed"
    design_code := "D-101"
    total_thans := 10
    meters_per_than := 25
    total_meters := 250
    cost_price_per_meter := 120
    total_stock_value := 30000 }

/-- dbOne after updating lot 1 with stockUpdateW. -/
def dbOneUpdated : DB := { nextInvId := 2, nextSaleId := 1, inventory := [invUpdatedW], sales := [] }

/-- C1: for every lot the inventory listing computes sold_meters as the sum
over legacy-linked records of kameez plus shalwar meters, plus the sum over
kameez-linked records of kameez meters, plus the sum over shalwar-linked
records of shalwar meters; remaining_meters is total_meters minus
sold_meters and remaining_stock_value is remaining_meters times
cost_price_per_meter; and a record that is simultaneously legacy-linked and
kameez-linked to the same lot has its kameez meters counted in both
subsets, as dupSale against lot 1 shows: 3 + 2 from the legacy subset plus
3 again from the kameez subset gives 8. -/
theorem claim1_inventory_listing :
    (∀ db : DB, getInventory db = db.inventory.map (specInventoryStatus db.sales)) ∧
    specSoldMeters [dupSale] 1 = 8 := by
  constructor
  · intro db
    unfold getInventory
    refine congrArg (fun f => List.map f db.inventory) (funext fun item => ?_)
    simp only [specInventoryStatus, soldMetersFor_eq]
  · norm_num [specSoldMeters, dupSale, qOrZero]

/-- C3: the profit/loss report lists, per lot with positive meters sold and
in inventory order, revenue as stored grand totals for legacy-linked
records plus meters-times-rate for each split-linked cut, cost as the same
meters times the lot cost price, profit as revenue minus cost, and the
percentage as profit over cost times 100 when cost is positive and 0
otherwise; lots with no meters sold are omitted. -/
theorem claim3_profit_loss_report :
    ∀ db : DB, getProfitLoss db = db.inventory.filterMap (specProfitLossEntry db.sales) := by
  intro db
  unfold getProfitLoss
  refine congrArg (fun f => List.filterMap f db.inventory) (funext fun item => ?_)
  simp only [specProfitLossEntry, plTotals_eq]

/-- C5: after every successful add_stock and every successful update_stock
the persisted lot satisfies total_meters = total_thans times meters_per_than
and total_stock_value = total_meters times cost_price_per_meter, computed
from the field values in force after the write. -/
theorem claim5_derived_fields (db : DB) :
    (∀ stock : StockCreate,
      (addStock db stock).2.total_meters
          = (addStock db stock).2.total_thans * (addStock db stock).2.meters_per_than ∧
      (addStock db stock).2.total_stock_value
          = (addStock db stock).2.total_meters * (addStock db stock).2.cost_price_per_meter ∧
      (addStock db stock).2 ∈ (addStock db stock).1.inventory) ∧
    (∀ (stockId : Nat) (u : StockUpdate) (db2 : DB) (inv2 : Inventory),
      updateStock db stockId u = (db2, .ok inv2) →
      inv2.total_meters = inv2.total_thans * inv2.meters_per_than ∧
      inv2.total_stock_value = inv2.total_meters * inv2.cost_price_per_meter ∧
      inv2 ∈ db2.inventory) := by
  constructor
  · intro stock
    refine ⟨rfl, rfl, ?_⟩
    simp [addStock]
  · intro stockId u db2 inv2 h
    unfold updateStock at h
    cases hf : findInventory db stockId with
    | none => rw [hf] at h; simp at h
    | some inv0 =>
      rw [hf] at h
      simp only [Prod.mk.injEq, Except.ok.injEq] at h
      obtain ⟨hdb, hinv⟩ := h
      subst hdb
      subst hinv
      refine ⟨rfl, rfl, ?_⟩
      have hf2 : db.inventory.find? (fun inv => inv.id == stockId) = some inv0 := hf
      have hmem : inv0 ∈ db.inventory := List.mem_of_find?_eq_some hf2
      have hid := List.find?_some hf2
      refine List.mem_map.mpr ⟨inv0, hmem, ?_⟩
      simp [hid]

/-- C5 witness: updating lot 1 of dbOne with stockUpdateW yields a lot with
consistent derived fields, persisted in the updated database. -/
theorem claim5_witness :
    invUpdatedW.total_meters = invUpdatedW.total_thans * invUpdatedW.meters_per_than ∧
    invUpdatedW.total_stock_value
        = invUpdatedW.total_meters * invUpdatedW.cost_price_per_meter ∧
    invUpdatedW ∈ dbOneUpdated.inventory :=
  (claim5_derived_fields dbOne).2 1 stockUpdateW dbOneUpdated invUpdatedW (by
    norm_num [updateStock, applyStockUpdate, findInventory, dbOne, lot1, stockUpdateW,
      dbOneUpdated, invUpdatedW])

/-- C6: delete_stock fails not-found when no lot has the id, fails with a
conflict carrying the count of sales records referencing the id through any
of the three foreign keys when that count is positive, and otherwise
removes the lot and succeeds. -/
theorem claim6_delete_stock (db : DB) (stockId : Nat) :
    (findInventory db stockId = none →
      deleteStock db stockId = (db, .error (.notFound "Stock item not found"))) ∧
    (∀ inv0, findInventory db stockId = some inv0 →
      (salesRefCount db.sales stockId > 0 →
        deleteStock db stockId = (db, .error (.conflict (salesRefCount db.sales stockId)))) ∧
      (salesRefCount db.sales stockId = 0 →
        deleteStock db stockId =
          ({ db with inventory := db.inventory.filter (fun x => x.id != stockId) },
           .ok ()))) := by
  constructor
  · intro hf
    simp [deleteStock, hf]
  · intro inv0 hf
    constructor
    · intro hcnt
      simp [deleteStock, hf, hcnt]
    · intro hcnt
      simp [deleteStock, hf, hcnt]

/-- C6 witness: deleting a missing lot from the empty database fails with
the not-found condition and leaves the state unchanged. -/
theorem claim6_witness :
    deleteStock dbEmpty 1 = (dbEmpty, .error (.notFound "Stock item not found")) :=
  (claim6_delete_stock dbEmpty 1).1 rfl

/-- C7: update_stock fails not-found when the lot is absent; on success the
persisted lot keeps every field that the request did not provide, takes
every provided field from the request, keeps its id, and only the derived
total_meters and total_stock_value are additionally recomputed. -/
theorem claim7_update_stock_frame (db : DB) (stockId : Nat) (u : StockUpdate) :
    (findInventory db stockId = none →
      updateStock db stockId u = (db, .error (.notFound "Stock item not found"))) ∧
    (∀ db2 inv2, updateStock db stockId u = (db2, .ok inv2) →
      ∃ inv0, findInventory db stockId = some inv0 ∧
        inv2.id = inv0.id ∧
        (u.company_name = none → inv2.company_name = inv0.company_name) ∧
        (∀ c, u.company_name = some c → inv2.company_name = c) ∧
        (u.design_code = none → inv2.design_code = inv0.design_code) ∧
        (∀ c, u.design_code = some c → inv2.design_code = c) ∧
        (u.total_thans = none → inv2.total_thans = inv0.total_thans) ∧
        (∀ t, u.total_thans = some t → inv2.total_thans = t) ∧
        (u.meters_per_than = none → inv2.meters_per_than = inv0.meters_per_than) ∧
        (∀ m, u.meters_per_than = some m → inv2.meters_per_than = m) ∧
        (u.cost_price_per_meter = none →
          inv2.cost_price_per_meter = inv0.cost_price_per_meter) ∧
        (∀ c, u.cost_price_per_meter = some c → inv2.cost_price_per_meter = c) ∧
        inv2.total_meters = inv2.total_thans * inv2.meters_per_than ∧
        inv2.total_stock_value = inv2.total_meters * inv2.cost_price_per_meter) := by
  constructor
  · intro hf
    simp [updateStock, hf]
  · intro db2 inv2 h
    unfold updateStock at h
    cases hf : findInventory db stockId with
    | none => rw [hf] at h; simp at h
    | some inv0 =>
      rw [hf] at h
      simp only [Prod.mk.injEq, Except.ok.injEq] at h
      obtain ⟨hdb, hinv⟩ := h
      subst hinv
      refine ⟨inv0, rfl, ?_⟩
      obtain ⟨uc, ud, ut, um, up⟩ := u
      rcases uc with _ | c1 <;> rcases ud with _ | c2 <;> rcases ut with _ | c3 <;>
        rcases um with _ | c4 <;> rcases up with _ | c5 <;>
        simp [applyStockUpdate]

/-- C7 witness: updating a missing lot in the empty database fails with the
not-found condition. -/
theorem claim7_witness :
    updateStock dbEmpty 1 stockUpdateW = (dbEmpty, .error (.notFound "Stock item not found")) :=
  (claim7_update_stock_frame dbEmpty 1 stockUpdateW).1 rfl

/-- C8: every successful bill creation inserts exactly one sales record,
appended to the sales table, whose kameez_total is kameez_meters times
kameez_rate, shalwar_total is shalwar_meters times shalwar_rate, and
grand_total is their sum. -/
theorem claim8_bill_totals (db : DB) (bill : BillCreate) (db2 : DB) (rec : SalesRecord)
    (h : createBill db bill = (db2, .ok rec)) :
    rec.kameez_meters = some bill.kameez_meters ∧
    rec.kameez_rate = some bill.kameez_rate ∧
    rec.kameez_total = some (bill.kameez_meters * bill.kameez_rate) ∧
    rec.shalwar_meters = some bill.shalwar_meters ∧
    rec.shalwar_rate = some bill.shalwar_rate ∧
    rec.shalwar_total = some (bill.shalwar_meters * bill.shalwar_rate) ∧
    rec.grand_total = some (bill.kameez_meters * bill.kameez_rate +
      bill.shalwar_meters * bill.shalwar_rate) ∧
    db2.sales = db.sales ++ [rec] := by
  cases hck : checkKameez db bill with
  | error e =>
    rw [createBill_err_kameez hck] at h
    simp at h
  | ok p =>
    obtain ⟨kc, kd⟩ := p
    cases hcs : checkShalwar db bill with
    | error e =>
      rw [createBill_err_shalwar hck hcs] at h
      simp at h
    | ok q =>
      obtain ⟨sc, sd⟩ := q
      cases hcl : checkLegacy db bill with
      | error e =>
        rw [createBill_err_legacy hck hcs hcl] at h
        simp at h
      | ok r =>
        obtain ⟨c, d⟩ := r
        rw [createBill_ok_eq hck hcs hcl] at h
        simp only [Prod.mk.injEq, Except.ok.injEq] at h
        obtain ⟨hdb, hrec⟩ := h
        subst hdb
        subst hrec
        exact ⟨rfl, rfl, rfl, rfl, rfl, rfl, rfl, rfl⟩

/-- C8 witness: creating billOkW against dbOne inserts exactly recW, with
totals 600, 360 and 960. -/
theorem claim8_witness :
    recW.kameez_meters = some billOkW.kameez_meters ∧
    recW.kameez_rate = some billOkW.kameez_rate ∧
    recW.kameez_total = some (billOkW.kameez_meters * billOkW.kameez_rate) ∧
    recW.shalwar_meters = some billOkW.shalwar_meters ∧
    recW.shalwar_rate = some billOkW.shalwar_rate ∧
    recW.shalwar_total = some (billOkW.shalwar_meters * billOkW.shalwar_rate) ∧
    recW.grand_total = some (billOkW.kameez_meters * billOkW.kameez_rate +
      billOkW.shalwar_meters * billOkW.shalwar_rate) ∧
    dbAfterW.sales = dbOne.sales ++ [recW] :=
  claim8_bill_totals dbOne billOkW dbAfterW recW (by
    norm_num [createBill, checkKameez, checkShalwar, checkLegacy, truthyId, findInventory,
      soldKameezMeters, pyOrStr, dbOne, lot1, billOkW, dbAfterW, recW])

/-- C10: bill creation is atomic on failure: whenever it returns an error
the database is unchanged, and the inventory table is never written by the
operation at all. -/
theorem claim10_atomic_on_failure (db : DB) (bill : BillCreate) :
    (∀ e, (createBill db bill).2 = .error e → (createBill db bill).1 = db) ∧
    (createBill db bill).1.inventory = db.inventory := by
  cases hck : checkKameez db bill with
  | error e0 =>
    rw [createBill_err_kameez hck]
    exact ⟨fun e _ => rfl, rfl⟩
  | ok p =>
    obtain ⟨kc, kd⟩ := p
    cases hcs : checkShalwar db bill with
    | error e0 =>
      rw [createBill_err_shalwar hck hcs]
      exact ⟨fun e _ => rfl, rfl⟩
    | ok q =>
      obtain ⟨sc, sd⟩ := q
      cases hcl : checkLegacy db bill with
      | error e0 =>
        rw [createBill_err_legacy hck hcs hcl]
        exact ⟨fun e _ => rfl, rfl⟩
      | ok r =>
        obtain ⟨c, d⟩ := r
        rw [createBill_ok_eq hck hcs hcl]
        refine ⟨fun e he => ?_, rfl⟩
        simp at he

/-- C10 witness: the failed oversized bill billSplitBig leaves dbOne
unchanged. -/
theorem claim10_witness : (createBill dbOne billSplitBig).1 = dbOne :=
  (claim10_atomic_on_failure dbOne billSplitBig).1
    (.insufficientStock .kameez 100 101) (by
      norm_num [createBill, checkKameez, checkShalwar, checkLegacy, truthyId, findInventory,
        soldKameezMeters, pyOrStr, dbOne, lot1, billSplitBig])

lemma createBill_error_sources {db : DB} {bill : BillCreate} {e : ApiError}
    (h : (createBill db bill).2 = .error e) :
    checkKameez db bill = .error e ∨ checkShalwar db bill = .error e ∨
      checkLegacy db bill = .error e := by
  cases hck : checkKameez db bill with
  | error e1 =>
    rw [createBill_err_kameez hck] at h
    simp only at h
    injection h with h2
    subst h2
    exact Or.inl rfl
  | ok p =>
    obtain ⟨kc, kd⟩ := p
    cases hcs : checkShalwar db bill with
    | error e2 =>
      rw [createBill_err_shalwar hck hcs] at h
      simp only at h
      injection h with h2
      subst h2
      exact Or.inr (Or.inl rfl)
    | ok q =>
      obtain ⟨sc, sd⟩ := q
      cases hcl : checkLegacy db bill with
      | error e3 =>
        rw [createBill_err_legacy hck hcs hcl] at h
        simp only at h
        injection h with h2
        subst h2
        exact Or.inr (Or.inr rfl)
      | ok r =>
        obtain ⟨c, d⟩ := r
        rw [createBill_ok_eq hck hcs hcl] at h
        simp at h

/-- C2: when a split inventory id is given for a cut, bill creation fails
not-found if the lot is absent; the cut fails with the insufficient-stock
error naming the remaining and required meters exactly when the requested
cut meters strictly exceed the lot total minus the meters already sold
through records that are split-linked to the lot or legacy-linked to it
with no split link for that cut; otherwise the validation succeeds with the
cut labels defaulted from the lot when not supplied, and a successful
insertion stores the label pairs the two cut validations produced. -/
theorem claim2_split_cut_validation (db : DB) (bill : BillCreate) :
    (∀ k, bill.kameez_inventory_id = some k → k ≠ 0 →
      (findInventory db k = none →
        createBill db bill = (db, .error (.notFound "Kameez inventory item not found"))) ∧
      (∀ v, findInventory db k = some v →
        (((createBill db bill).2 = .error (.insufficientStock .kameez
            (v.total_meters - specSoldKameez db.sales k) bill.kameez_meters)) ↔
          bill.kameez_meters > v.total_meters - specSoldKameez db.sales k) ∧
        (¬ bill.kameez_meters > v.total_meters - specSoldKameez db.sales k →
          checkKameez db bill = .ok
            (some (pyOrStr bill.kameez_company_name v.company_name),
             some (pyOrStr bill.kameez_design_code v.design_code))))) ∧
    (∀ s, bill.shalwar_inventory_id = some s → s ≠ 0 →
      (findInventory db s = none →
        checkShalwar db bill = .error (.notFound "Shalwar inventory item not found")) ∧
      (∀ v, findInventory db s = some v →
        ((checkShalwar db bill = .error (.insufficientStock .shalwar
            (v.total_meters - specSoldShalwar db.sales s) bill.shalwar_meters)) ↔
          bill.shalwar_meters > v.total_meters - specSoldShalwar db.sales s) ∧
        (¬ bill.shalwar_meters > v.total_meters - specSoldShalwar db.sales s →
          checkShalwar db bill = .ok
            (some (pyOrStr bill.shalwar_company_name v.company_name),
             some (pyOrStr bill.shalwar_design_code v.design_code))))) ∧
    (∀ e, checkShalwar db bill = .error e →
      ∀ p, checkKameez db bill = .ok p → createBill db bill = (db, .error e)) ∧
    (∀ p q db2 rec, checkKameez db bill = .ok p → checkShalwar db bill = .ok q →
      createBill db bill = (db2, .ok rec) →
      rec.kameez_company_name = p.1 ∧ rec.kameez_design_code = p.2 ∧
      rec.shalwar_company_name = q.1 ∧ rec.shalwar_design_code = q.2) := by
  refine ⟨?_, ?_, ?_, ?_⟩
  · intro k hk h0
    constructor
    · intro hf
      exact createBill_err_kameez (checkKameez_notFound db bill hk h0 hf)
    · intro v hf
      have hchar := checkKameez_found db bill hk h0 hf
      constructor
      · constructor
        · intro hE
          by_cases hc : bill.kameez_meters > v.total_meters - specSoldKameez db.sales k
          · exact hc
          · exfalso
            rw [if_neg hc] at hchar
            rcases createBill_error_sources hE with hsrc | hsrc | hsrc
            · rw [hchar] at hsrc
              simp at hsrc
            · rcases checkShalwar_error_shape hsrc with h2 | ⟨a, r, h2⟩ <;> simp at h2
            · rcases checkLegacy_error_shape hsrc with h2 | ⟨a, r, h2⟩ <;> simp at h2
        · intro hc
          rw [if_pos hc] at hchar
          rw [createBill_err_kameez hchar]
      · intro hc
        rw [if_neg hc] at hchar
        exact hchar
  · intro s hs h0
    constructor
    · intro hf
      exact checkShalwar_notFound db bill hs h0 hf
    · intro v hf
      have hchar := checkShalwar_found db bill hs h0 hf
      constructor
      · constructor
        · intro hE
          by_cases hc : bill.shalwar_meters > v.total_meters - specSoldShalwar db.sales s
          · exact hc
          · exfalso
            rw [if_neg hc] at hchar
            rw [hchar] at hE
            simp at hE
        · intro hc
          rw [if_pos hc] at hchar
          exact hchar
      · intro hc
        rw [if_neg hc] at hchar
        exact hchar
  · intro e he p hp
    exact createBill_err_shalwar hp he
  · intro p q db2 rec hp hq h
    obtain ⟨kc, kd⟩ := p
    obtain ⟨sc, sd⟩ := q
    cases hcl : checkLegacy db bill with
    | error e3 =>
      rw [createBill_err_legacy hp hq hcl] at h
      simp at h
    | ok r =>
      obtain ⟨c, d⟩ := r
      rw [createBill_ok_eq hp hq hcl] at h
      simp only [Prod.mk.injEq, Except.ok.injEq] at h
      obtain ⟨hdb, hrec⟩ := h
      subst hrec
      exact ⟨rfl, rfl, rfl, rfl⟩

/-- C2 witness: requesting 101 kameez meters from lot 1 of dbOne, which has
100 meters and no sales, fails with the kameez insufficient-stock error
naming the remaining 100 and the required 101. -/
theorem claim2_witness :
    (createBill dbOne billSplitBig).2 = .error (.insufficientStock .kameez
      (lot1.total_meters - specSoldKameez dbOne.sales 1) billSplitBig.kameez_meters) := by
  have h := ((claim2_split_cut_validation dbOne billSplitBig).1 1 rfl
    (by norm_num)).2 lot1 (by rfl)
  refine h.1.mpr ?_
  norm_num [billSplitBig, lot1, specSoldKameez, dbOne]

/-- C4: when a truthy legacy inventory_id is given and neither split id is
truthy, bill creation fails not-found if the legacy lot is absent; it fails
with the legacy insufficient-stock error naming the remaining and the
combined required meters exactly when the combined kameez plus shalwar
meters strictly exceed the lot total minus the combined meters of its
legacy-linked sales; and on success the shared label pair serving both
cuts defaults from the lot when not supplied. -/
theorem claim4_legacy_validation (db : DB) (bill : BillCreate) (i : Nat)
    (hi : bill.inventory_id = some i) (h0 : i ≠ 0)
    (hk : truthyId bill.kameez_inventory_id = false)
    (hs : truthyId bill.shalwar_inventory_id = false) :
    (findInventory db i = none →
      createBill db bill = (db, .error (.notFound "Inventory item not found"))) ∧
    (∀ v, findInventory db i = some v →
      (((createBill db bill).2 = .error (.insufficientStock .legacy
          (v.total_meters - specSoldLegacy db.sales i)
          (bill.kameez_meters + bill.shalwar_meters))) ↔
        bill.kameez_meters + bill.shalwar_meters
          > v.total_meters - specSoldLegacy db.sales i) ∧
      (∀ db2 rec, createBill db bill = (db2, .ok rec) →
        rec.company_name = some (pyOrStr bill.company_name v.company_name) ∧
        rec.design_code = some (pyOrStr bill.design_code v.design_code))) := by
  have hck := checkKameez_skip db bill hk
  have hcs := checkShalwar_skip db bill hs
  constructor
  · intro hf
    exact createBill_err_legacy hck hcs (checkLegacy_notFound db bill hi h0 hk hs hf)
  · intro v hf
    have hchar := checkLegacy_found db bill hi h0 hk hs hf
    constructor
    · constructor
      · intro hE
        by_cases hc : bill.kameez_meters + bill.shalwar_meters
            > v.total_meters - specSoldLegacy db.sales i
        · exact hc
        · exfalso
          rw [if_neg hc] at hchar
          rcases createBill_error_sources hE with hsrc | hsrc | hsrc
          · rw [hck] at hsrc
            simp at hsrc
          · rw [hcs] at hsrc
            simp at hsrc
          · rw [hchar] at hsrc
            simp at hsrc
      · intro hc
        rw [if_pos hc] at hchar
        rw [createBill_err_legacy hck hcs hchar]
    · intro db2 rec h
      by_cases hc : bill.kameez_meters + bill.shalwar_meters
          > v.total_meters - specSoldLegacy db.sales i
      · rw [if_pos hc] at hchar
        rw [createBill_err_legacy hck hcs hchar] at h
        simp at h
      · rw [if_neg hc] at hchar
        rw [createBill_ok_eq hck hcs hchar] at h
        simp only [Prod.mk.injEq, Except.ok.injEq] at h
        obtain ⟨hdb, hrec⟩ := h
        subst hrec
        exact ⟨rfl, rfl⟩

/-- C4 witness: the legacy bill billLegacyBig asking a combined 110 meters
from lot 1 of dbOne, which has 100 meters and no sales, fails with the
legacy insufficient-stock error naming the remaining 100 and the required
110. -/
theorem claim4_witness :
    (createBill dbOne billLegacyBig).2 = .error (.insufficientStock .legacy
      (lot1.total_meters - specSoldLegacy dbOne.sales 1)
      (billLegacyBig.kameez_meters + billLegacyBig.shalwar_meters)) := by
  have h := ((claim4_legacy_validation dbOne billLegacyBig 1 rfl (by norm_num)
    rfl rfl).2 lot1 (by rfl)).1
  refine h.mpr ?_
  norm_num [billLegacyBig, lot1, specSoldLegacy, dbOne]

/-- C9: when at least one split inventory id is truthy the legacy
validation branch is skipped entirely, returning the request labels
untouched no matter what the database holds, yet every successful insertion
stores the supplied legacy inventory_id alongside the split ids, so a bill
carrying both produces a record that is simultaneously legacy-linked and
split-linked, as billDupW against dbOne shows. -/
theorem claim9_dual_linkage :
    (∀ (db : DB) (bill : BillCreate),
      (truthyId bill.kameez_inventory_id || truthyId bill.shalwar_inventory_id) = true →
      checkLegacy db bill = .ok (bill.company_name, bill.design_code)) ∧
    (∀ (db : DB) (bill : BillCreate) (db2 : DB) (rec : SalesRecord),
      createBill db bill = (db2, .ok rec) →
      rec.inventory_id = bill.inventory_id ∧
      rec.kameez_inventory_id = bill.kameez_inventory_id ∧
      rec.shalwar_inventory_id = bill.shalwar_inventory_id) ∧
    ((createBill dbOne billDupW).2 = .ok recDupW ∧
      recDupW.inventory_id = some 1 ∧ recDupW.kameez_inventory_id = some 1) := by
  refine ⟨?_, ?_, ?_, rfl, rfl⟩
  · intro db bill h
    have hfalse : (truthyId bill.inventory_id && !truthyId bill.kameez_inventory_id &&
        !truthyId bill.shalwar_inventory_id) = false := by
      rcases Bool.or_eq_true _ _ |>.mp h with h1 | h1 <;> simp [h1]
    exact checkLegacy_skip db bill hfalse
  · intro db bill db2 rec h
    cases hck : checkKameez db bill with
    | error e =>
      rw [createBill_err_kameez hck] at h
      simp at h
    | ok p =>
      obtain ⟨kc, kd⟩ := p
      cases hcs : checkShalwar db bill with
      | error e =>
        rw [createBill_err_shalwar hck hcs] at h
        simp at h
      | ok q =>
        obtain ⟨sc, sd⟩ := q
        cases hcl : checkLegacy db bill with
        | error e =>
          rw [createBill_err_legacy hck hcs hcl] at h
          simp at h
        | ok r =>
          obtain ⟨c, d⟩ := r
          rw [createBill_ok_eq hck hcs hcl] at h
          simp only [Prod.mk.injEq, Except.ok.injEq] at h
          obtain ⟨hdb, hrec⟩ := h
          subst hrec
          exact ⟨rfl, rfl, rfl⟩
  · norm_num [createBill, checkKameez, checkShalwar, checkLegacy, truthyId, findInventory,
      soldKameezMeters, pyOrStr, dbOne, lot1, billDupW, recDupW]

/-- C9 witness: for billDupW, which carries both the legacy lot id and a
kameez lot id, the legacy branch returns the request labels untouched. -/
theorem claim9_witness :
    checkLegacy dbOne billDupW = .ok (billDupW.company_name, billDupW.design_code) :=
  claim9_dual_linkage.1 dbOne billDupW (by norm_num [truthyId, billDupW])

end ClothBilling
